import Mathlib

/-!
Shallow embedding of the HAL-JSON pagination walker of the cinemaquery
repository (src/cineamoquery/client.py): the Page record, the single-page
fetch `list_paginated` and the lazy generator `stream_all`.
-/

/-- JSON values as Python's json module produces them.  Numbers are
restricted to integers, which is all the pagination metadata uses. -/
inductive Json where
  | null
  | bool (b : Bool)
  | num (n : Int)
  | str (s : String)
  | arr (elems : List Json)
  | obj (fields : List (String × Json))

/-- Python truthiness of a JSON value (None, False, 0, empty string,
empty list and empty dict are falsy). -/
def Json.truthy : Json → Bool
  | .null => false
  | .bool b => b
  | .num n => n != 0
  | .str s => s != ""
  | .arr elems => !elems.isEmpty
  | .obj fields => !fields.isEmpty

/-- Whether a JSON value is an array (Python list). -/
def Json.isArr : Json → Bool
  | .arr _ => true
  | _ => false

/-- First binding of a key in an association list, mirroring a Python
dict lookup (parsed JSON objects have unique keys). -/
def lookupKey : List (String × Json) → String → Option Json
  | [], _ => none
  | kv :: rest, key => if kv.1 = key then some kv.2 else lookupKey rest key

/-- Python `d.get(k)`: the bound value, or None when the key is absent. -/
def pyGet (d : List (String × Json)) (k : String) : Json :=
  (lookupKey d k).getD .null

/-- Python `d.get(k, dflt)`. -/
def pyGetD (d : List (String × Json)) (k : String) (dflt : Json) : Json :=
  (lookupKey d k).getD dflt

/-- First array among a list of JSON values, in order — the loop over
`embedded.values()` in client.py lines 45-48. -/
def firstArray : List Json → Option (List Json)
  | [] => none
  | v :: rest =>
    match v with
    | .arr elems => some elems
    | _ => firstArray rest

/-- Failure conditions of the client, following the error taxonomy the
walker exposes: a non-2xx response raised by raise_for_status, an invalid
JSON body raised by resp.json, and an attribute failure raised when a
field that the code navigates with .get or .values is not an object
(a body shape outside the minimal required one). -/
inductive ClientError where
  | httpStatus (code : Nat)
  | parseError
  | attrError

/-- Whether an error belongs to the ParseError class of the taxonomy:
any failure of the body (invalid JSON or ill-shaped JSON), as opposed to
an HTTP status failure. -/
def ClientError.isParseClass : ClientError → Bool
  | .httpStatus _ => false
  | .parseError => true
  | .attrError => true

/-- The Page dataclass of client.py lines 12-18.  Optional metadata
fields hold the Python value stored by dict.get: Json.null plays the
role of None, for a missing key as well as for an explicit JSON null. -/
structure Page where
  items : List Json
  total_items : Json
  page : Json
  page_count : Json
  next_url : Json

/-- Extraction of the first embedded array (client.py lines 42-48):
iterating embedded.values() requires the embedded value to be a dict,
otherwise Python raises an attribute failure. -/
def extractItems (embedded : Json) : Except ClientError (List Json) :=
  match embedded with
  | .obj efields => .ok ((firstArray (efields.map Prod.snd)).getD [])
  | _ => .error .attrError

/-- Computation of next_url (client.py lines 49 and 55):
`(links.get("next") or \x7b\x7d).get("href")`.  A falsy next value is
replaced by an empty dict; a truthy non-dict next value has no .get and
raises an attribute failure, as does a non-dict links value. -/
def extractNextUrl (links : Json) : Except ClientError Json :=
  match links with
  | .obj lfields =>
    match (if (pyGet lfields "next").truthy then pyGet lfields "next" else .obj []) with
    | .obj nfields => .ok (pyGet nfields "href")
    | _ => .error .attrError
  | _ => .error .attrError

/-- Body-shaping part of list_paginated (client.py lines 41-56), applied
to an already parsed JSON body: pick the first embedded array, read the
metadata fields, read the next link. -/
def parsePage (data : Json) : Except ClientError Page :=
  match data with
  | .obj fields =>
    match extractItems (pyGetD fields "_embedded" (.obj [])) with
    | .error e => .error e
    | .ok items =>
      match extractNextUrl (pyGetD fields "_links" (.obj [])) with
      | .error e => .error e
      | .ok nu =>
        .ok ⟨items, pyGet fields "_total_items", pyGet fields "_page",
             pyGet fields "_page_count", nu⟩
  | _ => .error .attrError

/-- One HTTP response as the walker sees it: the status code, and the
body as parsed JSON (none when the body is not valid JSON). -/
structure HttpResponse where
  status : Nat
  body : Option Json

/-- list_paginated (client.py lines 39-56) as a function of the response
the server returned for the request: raise_for_status fails the call on
any non-2xx status (httpx treats 200-299 as success), then the body is
parsed as JSON and shaped into a Page. -/
def listPaginated (resp : HttpResponse) : Except ClientError Page :=
  if 200 ≤ resp.status ∧ resp.status < 300 then
    match resp.body with
    | some data => parsePage data
    | none => .error .parseError
  else .error (.httpStatus resp.status)

/-- Run-to-completion semantics of stream_all (client.py lines 58-67),
over a server modelled as the mapping from the page query parameter to
the response it returns.  The result collects the yielded items, the
number of page fetches performed, and the error the loop raised, if any.
The fuel argument bounds the number of loop iterations so that the
function is total; every theorem supplies enough fuel for the walk it
talks about. -/
def streamAllCollect (server : Nat → HttpResponse) :
    Nat → Nat → List Json × Nat × Option ClientError
  | 0, _ => ([], 0, none)
  | fuel + 1, pageNum =>
    match listPaginated (server pageNum) with
    | .error e => ([], 1, some e)
    | .ok p =>
      if p.next_url.truthy then
        match streamAllCollect server fuel (pageNum + 1) with
        | (items, fetches, err) => (p.items ++ items, fetches + 1, err)
      else (p.items, 1, none)

/-- Suspension state of the stream_all generator between two next()
calls: the items of the current page not yet yielded, whether the
current page had a truthy next_url, the page number of the next fetch,
whether a first page was fetched at all, whether the generator is
exhausted (or dead after an exception), and the number of page fetches
performed so far. -/
structure GenState where
  buffer : List Json
  hasNext : Bool
  pageNum : Nat
  started : Bool
  finished : Bool
  fetches : Nat

/-- State of the generator before the first next() call. -/
def initState : GenState :=
  ⟨[], false, 1, false, false, 0⟩

/-- Outcome of one next() call on the generator. -/
inductive NextOut where
  | item (j : Json)
  | stopIter
  | err (e : ClientError)
  | outOfFuel

/-- Fetching part of one next() call: the generator fetches page after
page (client.py line 63), skipping pages whose item list is empty, until
it can yield an item, the next link runs out, or a fetch raises.  The
fuel bounds the number of consecutive fetches inside the single call. -/
def fetchLoop (server : Nat → HttpResponse) :
    Nat → Nat → Nat → NextOut × GenState
  | 0, pageNum, fetches => (.outOfFuel, ⟨[], false, pageNum, true, false, fetches⟩)
  | fuel + 1, pageNum, fetches =>
    match listPaginated (server pageNum) with
    | .error e => (.err e, ⟨[], false, pageNum, true, true, fetches + 1⟩)
    | .ok p =>
      match p.items with
      | j :: rest =>
        (.item j, ⟨rest, p.next_url.truthy, pageNum + 1, true, false, fetches + 1⟩)
      | [] =>
        if p.next_url.truthy then fetchLoop server fuel (pageNum + 1) (fetches + 1)
        else (.stopIter, ⟨[], false, pageNum, true, true, fetches + 1⟩)

/-- One next() call on the stream_all generator: yield a buffered item
of the current page if one remains (no fetch happens then); otherwise
stop if the last fetched page had no truthy next link (client.py lines
65-66); otherwise fetch (client.py line 63). -/
def genNext (server : Nat → HttpResponse) (fuel : Nat) (s : GenState) :
    NextOut × GenState :=
  if s.finished then (.stopIter, s)
  else
    match s.buffer with
    | j :: rest => (.item j, { s with buffer := rest })
    | [] =>
      if s.started && !s.hasNext then (.stopIter, { s with finished := true })
      else fetchLoop server fuel s.pageNum s.fetches

/-- Demand-driven consumption: the consumer performs at most n next()
calls, stopping early at exhaustion or at an error.  Returns the items
actually yielded, the final generator state, and the error observed. -/
def runGen (server : Nat → HttpResponse) (fuel : Nat) :
    Nat → GenState → List Json × GenState × Option ClientError
  | 0, s => ([], s, none)
  | n + 1, s =>
    match genNext server fuel s with
    | (.item j, s1) =>
      match runGen server fuel n s1 with
      | (rest, s2, e) => (j :: rest, s2, e)
    | (.stopIter, s1) => ([], s1, none)
    | (.err e, s1) => ([], s1, some e)
    | (.outOfFuel, s1) => ([], s1, none)

/-- Outcome of assembling a Python call whose keyword arguments are some
explicit bindings followed by a splatted mapping: a duplicate keyword
raises TypeError before the callee runs, otherwise the callee receives
the combined bindings. -/
inductive KwResult where
  | typeError (key : String)
  | request (query : List (String × Json))

/-- Python keyword-argument assembly for `f(k1=v1, ..., **params)`. -/
def callWithKwargs (explicitArgs : List (String × Json))
    (params : List (String × Json)) : KwResult :=
  match params.find? (fun kv => explicitArgs.any (fun e => e.1 == kv.1)) with
  | some kv => .typeError kv.1
  | none => .request (explicitArgs ++ params)

/-- Keyword assembly of the first fetch stream_all performs
(client.py line 63): list_paginated receives per_page and page
explicitly, plus the forwarded open parameter mapping. -/
def streamAllFirstKwargs (perPage : Json) (params : List (String × Json)) :
    KwResult :=
  callWithKwargs [("per_page", perPage), ("page", .num 1)] params

/-- Parameter stripping performed by the CLI callers before forwarding a
mapping to stream_all (cli.py lines 180-182: pop of per_page and page). -/
def stripPageKeys (params : List (String × Json)) : List (String × Json) :=
  params.filter (fun kv => !(kv.1 == "per_page" || kv.1 == "page"))

/-- Reading of the spec sentence: next_url is read from _links.next.href
and defaults to absent when any step of that path is missing. -/
def specNextUrl (fields : List (String × Json)) : Json :=
  match lookupKey fields "_links" with
  | some (.obj lfs) =>
    match lookupKey lfs "next" with
    | some (.obj nfs) => pyGet nfs "href"
    | _ => .null
  | _ => .null

/-- HAL shape of the navigation part of a body: _links, when present, is
an object, and its next value, when truthy, is an object. -/
def LinksShapeOk (fields : List (String × Json)) : Prop :=
  match lookupKey fields "_links" with
  | none => True
  | some (.obj lfs) =>
    (pyGet lfs "next").truthy = true → ∃ nfs, pyGet lfs "next" = Json.obj nfs
  | some _ => False

/-- Description of a finite walk served from a given starting page
number: every page parses, every page but the last carries a truthy
next_url, and the last page's next_url is falsy. -/
def isWalkFrom (server : Nat → HttpResponse) : Nat → List Page → Prop
  | _, [] => False
  | start, [p] =>
    listPaginated (server start) = .ok p ∧ p.next_url.truthy = false
  | start, p :: q :: rest =>
    listPaginated (server start) = .ok p ∧ p.next_url.truthy = true ∧
      isWalkFrom server (start + 1) (q :: rest)

/-- Concatenation of the items of a list of pages, in page order. -/
def concatItems (ps : List Page) : List Json :=
  ps.foldr (fun p acc => p.items ++ acc) []

/-- Whether a JSON value is an object (Python dict). -/
def Json.isObj : Json → Bool
  | .obj _ => true
  | _ => false

/-- Items of a successful fetch, none when the fetch failed. -/
def pageItems : Except ClientError Page → Option (List Json)
  | .ok p => some p.items
  | .error _ => none

/-- Two-page walk of the ordering example: page 1 carries items 1 and 2
and a next link, page 2 carries items 3 and 4 and no next link. -/
def ordBody1 : Json :=
  .obj [("_embedded", .obj [("cinemas", .arr [.num 1, .num 2])]),
        ("_links", .obj [("next", .obj [("href", .str "/cinemas?page=2")])])]

/-- Second page of the ordering example. -/
def ordBody2 : Json :=
  .obj [("_embedded", .obj [("cinemas", .arr [.num 3, .num 4])])]

/-- Server of the ordering example. -/
def ordServer : Nat → HttpResponse := fun n =>
  if n = 1 then ⟨200, some ordBody1⟩ else ⟨200, some ordBody2⟩

/-- Page parsed from ordBody1. -/
def ordPage1 : Page :=
  ⟨[.num 1, .num 2], .null, .null, .null, .str "/cinemas?page=2"⟩

/-- Page parsed from ordBody2. -/
def ordPage2 : Page :=
  ⟨[.num 3, .num 4], .null, .null, .null, .null⟩

/-- First page of a server whose page 1 has a next link with an empty
href, while a further page with more items is available. -/
def emptyHrefBody1 : Json :=
  .obj [("_embedded", .obj [("items", .arr [.num 1, .num 2])]),
        ("_links", .obj [("next", .obj [("href", .str "")])])]

/-- Second page behind the empty next href. -/
def emptyHrefBody2 : Json :=
  .obj [("_embedded", .obj [("items", .arr [.num 3, .num 4])])]

/-- Server whose page 1 next link has an empty href. -/
def emptyHrefServer : Nat → HttpResponse := fun n =>
  if n = 1 then ⟨200, some emptyHrefBody1⟩ else ⟨200, some emptyHrefBody2⟩

/-- Page 1 of a server that advertises five pages in _page_count and
carries a next link whose href is the empty string. -/
def pc5Body1 : Json :=
  .obj [("_embedded", .obj [("movies", .arr [.num 7])]),
        ("_page_count", .num 5),
        ("_links", .obj [("next", .obj [("href", .str "")])])]

/-- Later pages of that server. -/
def pc5Body2 : Json :=
  .obj [("_embedded", .obj [("movies", .arr [.num 8])])]

/-- Server advertising five pages whose page 1 next href is empty. -/
def pc5Server : Nat → HttpResponse := fun n =>
  if n = 1 then ⟨200, some pc5Body1⟩ else ⟨200, some pc5Body2⟩

/-- Single page whose _page_count claims five pages but which carries no
next link at all. -/
def stopBody : Json :=
  .obj [("_embedded", .obj [("cinemas", .arr [.num 9])]),
        ("_page_count", .num 5)]

/-- Server always answering with stopBody. -/
def stopServer : Nat → HttpResponse := fun _ => ⟨200, some stopBody⟩

/-- Page parsed from stopBody. -/
def stopPage : Page := ⟨[.num 9], .null, .null, .num 5, .null⟩

/-- Server answering every request with a bodyless 404. -/
def err404Server : Nat → HttpResponse := fun _ => ⟨404, none⟩

/-- Three pages of two items each, used for the laziness scenario. -/
def lazyBody1 : Json :=
  .obj [("_embedded", .obj [("cinemas", .arr [.num 1, .num 2])]),
        ("_links", .obj [("next", .obj [("href", .str "/cinemas?page=2")])])]

/-- Second page of the laziness scenario. -/
def lazyBody2 : Json :=
  .obj [("_embedded", .obj [("cinemas", .arr [.num 3, .num 4])]),
        ("_links", .obj [("next", .obj [("href", .str "/cinemas?page=3")])])]

/-- Third page of the laziness scenario. -/
def lazyBody3 : Json :=
  .obj [("_embedded", .obj [("cinemas", .arr [.num 5, .num 6])])]

/-- Server of the laziness scenario. -/
def lazyServer : Nat → HttpResponse := fun n =>
  if n = 1 then ⟨200, some lazyBody1⟩
  else if n = 2 then ⟨200, some lazyBody2⟩
  else ⟨200, some lazyBody3⟩

/-- Page parsed from lazyBody1. -/
def lazyPage1 : Page :=
  ⟨[.num 1, .num 2], .null, .null, .null, .str "/cinemas?page=2"⟩

/-- Page parsed from lazyBody2. -/
def lazyPage2 : Page :=
  ⟨[.num 3, .num 4], .null, .null, .null, .str "/cinemas?page=3"⟩

/-- Page parsed from lazyBody3. -/
def lazyPage3 : Page :=
  ⟨[.num 5, .num 6], .null, .null, .null, .null⟩

/-- Fields of the single-array extraction example: a non-array value
before the cinemas array under _embedded. -/
def embWitFields : List (String × Json) :=
  [("_embedded", .obj [("total", .num 100), ("cinemas", .arr [.str "A", .str "B"])])]

/-- Page parsed from the single-array extraction example. -/
def embWitPage : Page := ⟨[.str "A", .str "B"], .null, .null, .null, .null⟩

/-- Object body whose _links value is the number 5 rather than an
object. -/
def badLinksBody : Json := .obj [("_links", .num 5)]

/-- Object body carrying only a total count and no _embedded. -/
def noEmbFields : List (String × Json) := [("_total_items", .num 3)]

/-- Fields of the metadata passthrough example. -/
def metaFields : List (String × Json) :=
  [("_page", .num 2), ("_page_count", .num 7), ("_total_items", .num 100),
   ("_links", .obj [("next", .obj [("href", .str "/cinemas?page=3")])])]

/-- Page parsed from the metadata passthrough example. -/
def metaPage : Page :=
  ⟨[], .num 100, .num 2, .num 7, .str "/cinemas?page=3"⟩

theorem firstArray_append (pre : List Json) (hpre : ∀ v ∈ pre, v.isArr = false)
    (xs : List Json) (post : List Json) :
    firstArray (pre ++ Json.arr xs :: post) = some xs := by
  induction pre with
  | nil => rfl
  | cons v rest ih =>
    have hv := hpre v (List.mem_cons_self v rest)
    have hrest : ∀ w ∈ rest, w.isArr = false :=
      fun w hw => hpre w (List.mem_cons_of_mem v hw)
    cases v with
    | arr elems => simp [Json.isArr] at hv
    | null => simpa [firstArray] using ih hrest
    | bool b => simpa [firstArray] using ih hrest
    | num n => simpa [firstArray] using ih hrest
    | str s => simpa [firstArray] using ih hrest
    | obj fs => simpa [firstArray] using ih hrest

theorem firstArray_eq_none (vs : List Json) (h : ∀ v ∈ vs, v.isArr = false) :
    firstArray vs = none := by
  induction vs with
  | nil => rfl
  | cons v rest ih =>
    have hv := h v (List.mem_cons_self v rest)
    have hrest : ∀ w ∈ rest, w.isArr = false :=
      fun w hw => h w (List.mem_cons_of_mem v hw)
    cases v with
    | arr elems => simp [Json.isArr] at hv
    | null => simpa [firstArray] using ih hrest
    | bool b => simpa [firstArray] using ih hrest
    | num n => simpa [firstArray] using ih hrest
    | str s => simpa [firstArray] using ih hrest
    | obj fs => simpa [firstArray] using ih hrest

/-- C3: for every JSON object body whose _embedded object contains at
least one array-valued entry, the items of the fetched page equal the
first array value encountered when scanning the _embedded values in
their encoded order, regardless of the key name or position; all other
embedded entries, including non-array values, are ignored. -/
theorem listPaginated_first_embedded_array
    (fields : List (String × Json)) (efs : List (String × Json))
    (pre xs post : List Json) (p : Page)
    (hemb : lookupKey fields "_embedded" = some (.obj efs))
    (hsplit : efs.map Prod.snd = pre ++ Json.arr xs :: post)
    (hpre : ∀ v ∈ pre, v.isArr = false)
    (hok : parsePage (.obj fields) = .ok p) :
    p.items = xs := by
  have hfa : firstArray (efs.map Prod.snd) = some xs := by
    rw [hsplit]; exact firstArray_append pre hpre xs post
  have hitems : extractItems (pyGetD fields "_embedded" (.obj [])) = .ok xs := by
    simp [pyGetD, hemb, extractItems, hfa]
  rw [parsePage] at hok
  rw [hitems] at hok
  cases hn : extractNextUrl (pyGetD fields "_links" (.obj [])) with
  | error e => rw [hn] at hok; simp at hok
  | ok nu =>
    rw [hn] at hok
    simp only [Except.ok.injEq] at hok
    rw [← hok]

/-- Witness for C3 at the example body. -/
theorem listPaginated_first_embedded_array_witness :
    parsePage (.obj embWitFields) = .ok embWitPage ∧
    embWitPage.items = [Json.str "A", Json.str "B"] :=
  ⟨rfl, listPaginated_first_embedded_array embWitFields
    [("total", .num 100), ("cinemas", .arr [.str "A", .str "B"])]
    [.num 100] [.str "A", .str "B"] [] embWitPage rfl rfl (by decide) rfl⟩

/-- Counterexample to C4 as stated: the object body with _embedded
absent whose _links value is the number 5 makes fetch-one-page fail
with an attribute error instead of returning a Page with empty items. -/
theorem no_array_fallback_cex :
    lookupKey [("_links", Json.num 5)] "_embedded" = none ∧
    parsePage badLinksBody = .error .attrError ∧
    pageItems (parsePage badLinksBody) = none :=
  ⟨rfl, rfl, rfl⟩

/-- C4 (amended): for every JSON object body in which _embedded is
absent or is an object containing no array value, and whose _links part
has the HAL shape (absent, or an object whose next value, when truthy,
is an object), fetch-one-page returns a Page whose items is the empty
list, without failing. -/
theorem listPaginated_no_array_fallback (fields : List (String × Json))
    (hemb : lookupKey fields "_embedded" = none ∨
      ∃ efs, lookupKey fields "_embedded" = some (.obj efs) ∧
        ∀ v ∈ efs.map Prod.snd, v.isArr = false)
    (hlinks : LinksShapeOk fields) :
    pageItems (parsePage (.obj fields)) = some [] := by
  have hitems : extractItems (pyGetD fields "_embedded" (.obj [])) = .ok [] := by
    rcases hemb with h | ⟨efs, h, hall⟩
    · simp [pyGetD, h, extractItems, firstArray]
    · simp [pyGetD, h, extractItems, firstArray_eq_none _ hall]
  have hnu : ∃ nu, extractNextUrl (pyGetD fields "_links" (.obj [])) = .ok nu := by
    rw [LinksShapeOk] at hlinks
    cases hl : lookupKey fields "_links" with
    | none =>
      refine ⟨.null, ?_⟩
      simp [pyGetD, hl, extractNextUrl, pyGet, lookupKey, Json.truthy]
    | some j =>
      rw [hl] at hlinks
      cases j with
      | obj lfs =>
        by_cases ht : (pyGet lfs "next").truthy = true
        · obtain ⟨nfs, hn⟩ := hlinks ht
          rw [hn] at ht
          exact ⟨pyGet nfs "href", by simp [pyGetD, hl, extractNextUrl, hn, ht]⟩
        · have ht2 : (pyGet lfs "next").truthy = false := by
            simpa using ht
          have ht3 : ((lookupKey lfs "next").getD Json.null).truthy = false := ht2
          exact ⟨.null, by simp [pyGetD, hl, extractNextUrl, ht3, pyGet, lookupKey]⟩
      | null => exact absurd hlinks (by simp)
      | bool b => exact absurd hlinks (by simp)
      | num n => exact absurd hlinks (by simp)
      | str s => exact absurd hlinks (by simp)
      | arr elems => exact absurd hlinks (by simp)
  obtain ⟨nu, hn⟩ := hnu
  rw [parsePage, hitems, hn]
  rfl

/-- Witness for the amended C4 at a body with no _embedded and no
_links. -/
theorem listPaginated_no_array_fallback_witness :
    pageItems (parsePage (.obj noEmbFields)) = some [] :=
  listPaginated_no_array_fallback noEmbFields (Or.inl rfl) (by rw [LinksShapeOk]; exact trivial)

theorem extractNextUrl_spec (fields : List (String × Json)) (nu : Json)
    (h : extractNextUrl (pyGetD fields "_links" (.obj [])) = .ok nu) :
    nu = specNextUrl fields := by
  simp only [pyGetD] at h
  cases hl : lookupKey fields "_links" with
  | none =>
    rw [hl, Option.getD_none] at h
    injection h with h2
    simp only [specNextUrl, hl]
    exact h2.symm
  | some j =>
    rw [hl, Option.getD_some] at h
    cases j with
    | null => exact Except.noConfusion h
    | bool b => exact Except.noConfusion h
    | num n => exact Except.noConfusion h
    | str s => exact Except.noConfusion h
    | arr elems => exact Except.noConfusion h
    | obj lfs =>
      unfold extractNextUrl at h
      simp only [pyGet] at h
      cases hn : lookupKey lfs "next" with
      | none =>
        rw [hn, Option.getD_none] at h
        injection h with h2
        simp only [specNextUrl, hl, hn]
        exact h2.symm
      | some nv =>
        rw [hn, Option.getD_some] at h
        simp only [specNextUrl, hl, hn]
        cases nv with
        | null => injection h with h2; exact h2.symm
        | bool b =>
          cases b with
          | false => injection h with h2; exact h2.symm
          | true => exact Except.noConfusion h
        | num n =>
          by_cases hz : n = 0
          · subst hz; injection h with h2; exact h2.symm
          · simp [Json.truthy, hz] at h
        | str s =>
          by_cases hz : s = ""
          · subst hz; injection h with h2; exact h2.symm
          · simp [Json.truthy, hz] at h
        | arr elems =>
          cases elems with
          | nil => injection h with h2; exact h2.symm
          | cons a rest => simp [Json.truthy] at h
        | obj nfs =>
          cases nfs with
          | nil => injection h with h2; exact h2.symm
          | cons kv rest => injection h with h2; exact h2.symm

/-- C5: for every JSON object body from which fetch-one-page produces a
Page, the top-level fields _page, _page_count and _total_items map
exactly, unchanged, to the Page fields page, page_count and
total_items, defaulting to null when missing, and next_url is read from
_links.next.href, defaulting to absent when that path is missing. -/
theorem listPaginated_metadata_passthrough
    (fields : List (String × Json)) (p : Page)
    (hok : parsePage (.obj fields) = .ok p) :
    p.page = pyGet fields "_page" ∧ p.page_count = pyGet fields "_page_count" ∧
    p.total_items = pyGet fields "_total_items" ∧ p.next_url = specNextUrl fields := by
  rw [parsePage] at hok
  cases hi : extractItems (pyGetD fields "_embedded" (.obj [])) with
  | error e => rw [hi] at hok; simp at hok
  | ok items =>
    rw [hi] at hok
    cases hn : extractNextUrl (pyGetD fields "_links" (.obj [])) with
    | error e => rw [hn] at hok; simp at hok
    | ok nu =>
      rw [hn] at hok
      simp only [Except.ok.injEq] at hok
      rw [← hok]
      exact ⟨rfl, rfl, rfl, extractNextUrl_spec fields nu hn⟩

/-- Witness for C5 at the metadata example body. -/
theorem listPaginated_metadata_passthrough_witness :
    parsePage (.obj metaFields) = .ok metaPage ∧
    metaPage.page = pyGet metaFields "_page" ∧
    metaPage.page_count = pyGet metaFields "_page_count" ∧
    metaPage.total_items = pyGet metaFields "_total_items" ∧
    metaPage.next_url = specNextUrl metaFields :=
  ⟨rfl, listPaginated_metadata_passthrough metaFields metaPage rfl⟩

theorem streamAllCollect_walk (pages : List Page) :
    ∀ (server : Nat → HttpResponse) (start fuel : Nat),
      isWalkFrom server start pages → pages.length ≤ fuel →
      streamAllCollect server fuel start = (concatItems pages, pages.length, none) := by
  induction pages with
  | nil => intro server start fuel hw _; exact absurd hw (by simp [isWalkFrom])
  | cons p rest ih =>
    intro server start fuel hw hlen
    cases fuel with
    | zero => simp at hlen
    | succ f =>
      cases rest with
      | nil =>
        obtain ⟨h1, h2⟩ := hw
        simp [streamAllCollect, h1, h2, concatItems]
      | cons q rs =>
        obtain ⟨h1, h2, h3⟩ := hw
        have hlen2 : (q :: rs).length ≤ f := by
          simp only [List.length_cons] at hlen ⊢
          omega
        have hr := ih server (start + 1) f h3 hlen2
        simp [streamAllCollect, h1, h2, hr, concatItems]

/-- C1 (amended): for every finite walk in the falsy sense — a run of
pages each of which parses, every page before the last carrying a
truthy next_url and the last carrying a falsy one (absent or empty) —
stream_all consumed to the end yields exactly the concatenation of the
pages' items in strict page order and performs exactly one fetch per
page of the walk. -/
theorem streamAll_page_order (server : Nat → HttpResponse) (pages : List Page)
    (fuel : Nat) (hw : isWalkFrom server 1 pages) (hf : pages.length ≤ fuel) :
    streamAllCollect server fuel 1 = (concatItems pages, pages.length, none) :=
  streamAllCollect_walk pages server 1 fuel hw hf

/-- Witness for C1 at the two-page ordering example: items 1, 2 then
3, 4, yielded in that order with exactly two fetches. -/
theorem streamAll_page_order_witness :
    streamAllCollect ordServer 5 1 = ([.num 1, .num 2, .num 3, .num 4], 2, none) := by
  have h := streamAll_page_order ordServer [ordPage1, ordPage2] 5
    ⟨rfl, rfl, rfl, rfl⟩ (by decide)
  simpa [concatItems, ordPage1, ordPage2] using h

/-- Counterexample to C1 as stated: on the walk whose page 1 carries a
next link with empty href and whose page 2 lacks a next link, the first
page with absent next_url is page 2, so the claim requires the items of
both pages and two fetches; the code stops after page 1 with one fetch
and two items. -/
theorem streamAll_page_order_cex :
    listPaginated (emptyHrefServer 1) =
      .ok ⟨[.num 1, .num 2], .null, .null, .null, .str ""⟩ ∧
    listPaginated (emptyHrefServer 2) =
      .ok ⟨[.num 3, .num 4], .null, .null, .null, .null⟩ ∧
    streamAllCollect emptyHrefServer 9 1 = ([.num 1, .num 2], 1, none) ∧
    (streamAllCollect emptyHrefServer 9 1).2.1 ≠ 2 ∧
    (streamAllCollect emptyHrefServer 9 1).1.length ≠ 4 := by
  refine ⟨rfl, rfl, rfl, ?_, ?_⟩
  · rw [show streamAllCollect emptyHrefServer 9 1 = ([.num 1, .num 2], 1, none) from rfl]
    decide
  · rw [show streamAllCollect emptyHrefServer 9 1 = ([.num 1, .num 2], 1, none) from rfl]
    decide

/-- C2 (amended): stream_all stops fetching exactly when a fetched
page's next_url is falsy — absent or empty — including on the very
first page, and never decides continuation from _page_count or any
other metadata: the stopping case is stated for an arbitrary page
value, whatever its page_count, and a page with a truthy next_url
always causes one more fetch with the page parameter incremented
by 1. -/
theorem streamAll_next_link_termination (server : Nat → HttpResponse)
    (n fuel : Nat) (p : Page) (h : listPaginated (server n) = .ok p) :
    (p.next_url.truthy = false →
      streamAllCollect server (fuel + 1) n = (p.items, 1, none)) ∧
    (p.next_url.truthy = true →
      streamAllCollect server (fuel + 1) n =
        (p.items ++ (streamAllCollect server fuel (n + 1)).1,
         (streamAllCollect server fuel (n + 1)).2.1 + 1,
         (streamAllCollect server fuel (n + 1)).2.2)) := by
  constructor
  · intro hf
    simp [streamAllCollect, h, hf]
  · intro ht
    rcases h2 : streamAllCollect server fuel (n + 1) with ⟨items, fetches, err⟩
    simp [streamAllCollect, h, ht, h2]

/-- Witness for C2 at a page that advertises five pages in _page_count
yet carries no next link: the walk stops after one fetch. -/
theorem streamAll_next_link_termination_witness :
    listPaginated (stopServer 1) = .ok stopPage ∧
    stopPage.page_count = .num 5 ∧
    streamAllCollect stopServer 4 1 = ([.num 9], 1, none) :=
  ⟨rfl, rfl, (streamAll_next_link_termination stopServer 1 3 stopPage rfl).1 rfl⟩

/-- Counterexample to C2 as stated: page 1 of pc5Server carries a next
link (next_url is the present string "") and _page_count 5, yet
stream_all performs no further fetch: the walk ends after one fetch,
though the claim requires a page with a next link to always cause one
more. -/
theorem streamAll_next_link_termination_cex :
    listPaginated (pc5Server 1) =
      .ok ⟨[.num 7], .null, .null, .num 5, .str ""⟩ ∧
    streamAllCollect pc5Server 9 1 = ([.num 7], 1, none) ∧
    (streamAllCollect pc5Server 9 1).2.1 ≠ 2 := by
  refine ⟨rfl, rfl, ?_⟩
  rw [show streamAllCollect pc5Server 9 1 = ([.num 7], 1, none) from rfl]
  decide

/-- C6: a response whose status is not 2xx makes fetch-one-page fail
with an HTTP status error carrying that numeric code and no Page, and
when it is the first page of a walk, stream_all raises that same error
at the first item request, having yielded no items, whatever the demand
the consumer places afterwards. -/
theorem http_error_propagation (server : Nat → HttpResponse) (fuel : Nat)
    (h : ¬(200 ≤ (server 1).status ∧ (server 1).status < 300)) :
    listPaginated (server 1) = .error (.httpStatus (server 1).status) ∧
    ∀ k, runGen server (fuel + 1) (k + 1) initState =
      ([], ⟨[], false, 1, true, true, 1⟩, some (.httpStatus (server 1).status)) := by
  have h1 : listPaginated (server 1) = .error (.httpStatus (server 1).status) := by
    simp [listPaginated, h]
  refine ⟨h1, fun k => ?_⟩
  simp [runGen, genNext, initState, fetchLoop, h1]

/-- Witness for C6 at a server answering 404: the status error carries
404 and the first next() raises it with no item yielded. -/
theorem http_error_propagation_witness :
    listPaginated (err404Server 1) = .error (.httpStatus 404) ∧
    runGen err404Server 3 1 initState =
      ([], ⟨[], false, 1, true, true, 1⟩, some (.httpStatus 404)) := by
  have h := http_error_propagation err404Server 2 (by decide)
  exact ⟨h.1, h.2 0⟩

/-- C7: a 2xx response whose body is not valid JSON fails with the
parse error, a 2xx response whose body is JSON but not an object fails
with the attribute error — both in the ParseError class, with no Page
produced — whereas a JSON object body merely missing its fields
succeeds with absent metadata and empty items rather than failing. -/
theorem parse_error_handling (resp : HttpResponse)
    (h2xx : 200 ≤ resp.status ∧ resp.status < 300) :
    (resp.body = none →
      listPaginated resp = .error .parseError ∧
      ClientError.parseError.isParseClass = true) ∧
    (∀ b, resp.body = some b → b.isObj = false →
      listPaginated resp = .error .attrError ∧
      ClientError.attrError.isParseClass = true) ∧
    (∀ fields, resp.body = some (.obj fields) →
      lookupKey fields "_embedded" = none → lookupKey fields "_links" = none →
      listPaginated resp = .ok ⟨[], pyGet fields "_total_items",
        pyGet fields "_page", pyGet fields "_page_count", .null⟩) := by
  refine ⟨fun hb => ⟨?_, rfl⟩, fun b hb hno => ⟨?_, rfl⟩, fun fields hb he hl => ?_⟩
  · simp [listPaginated, h2xx, hb]
  · rw [listPaginated, if_pos h2xx, hb]
    cases b with
    | obj fs => simp [Json.isObj] at hno
    | null => rfl
    | bool x => rfl
    | num x => rfl
    | str x => rfl
    | arr x => rfl
  · have hstep : listPaginated resp = parsePage (.obj fields) := by
      rw [listPaginated, if_pos h2xx, hb]
    have hi : extractItems (pyGetD fields "_embedded" (.obj [])) = .ok [] := by
      simp [pyGetD, he, extractItems, firstArray]
    have hn : extractNextUrl (pyGetD fields "_links" (.obj [])) = .ok Json.null := by
      simp [pyGetD, hl]
      rfl
    rw [hstep, parsePage, hi, hn]

/-- Witness for C7: an invalid body, a non-object body and an object
body with no known fields, each at a concrete 2xx response. -/
theorem parse_error_handling_witness :
    listPaginated ⟨200, none⟩ = .error .parseError ∧
    listPaginated ⟨204, some (.arr [])⟩ = .error .attrError ∧
    listPaginated ⟨200, some (.obj [("title", .str "t")])⟩ =
      .ok ⟨[], .null, .null, .null, .null⟩ := by
  refine ⟨((parse_error_handling ⟨200, none⟩ (by decide)).1 rfl).1,
          (((parse_error_handling ⟨204, some (.arr [])⟩ (by decide)).2.1)
            (.arr []) rfl rfl).1, ?_⟩
  exact ((parse_error_handling ⟨200, some (.obj [("title", .str "t")])⟩
    (by decide)).2.2) [("title", .str "t")] rfl rfl rfl

/-- C8: stream_all is lazy — a next() call served from the buffered
items of the current page performs no fetch, and a consumer reading
only the first 3 items over a server offering three pages of two items
each causes exactly 2 page fetches, one item of the second page staying
buffered and the third page never being requested. -/
theorem streamAll_lazy (server : Nat → HttpResponse) (fuel : Nat)
    (p1 p2 p3 : Page) (a b c d : Json)
    (h1 : listPaginated (server 1) = .ok p1) (hi1 : p1.items = [a, b])
    (hn1 : p1.next_url.truthy = true)
    (h2 : listPaginated (server 2) = .ok p2) (hi2 : p2.items = [c, d])
    (hn2 : p2.next_url.truthy = true)
    (_h3 : listPaginated (server 3) = .ok p3)
    (_hn3 : p3.next_url.truthy = false) :
    (∀ (s : GenState) (j : Json) (rest : List Json),
      s.finished = false → s.buffer = j :: rest →
      genNext server fuel s = (.item j, { s with buffer := rest })) ∧
    runGen server (fuel + 1) 3 initState =
      ([a, b, c], ⟨[d], true, 3, true, false, 2⟩, none) := by
  constructor
  · intro s j rest hsf hsb
    simp [genNext, hsf, hsb]
  · simp [runGen, genNext, initState, fetchLoop, h1, hi1, hn1, h2, hi2, hn2]

/-- Witness for C8 at the three-page laziness server. -/
theorem streamAll_lazy_witness :
    runGen lazyServer 6 3 initState =
      ([.num 1, .num 2, .num 3], ⟨[.num 4], true, 3, true, false, 2⟩, none) :=
  (streamAll_lazy lazyServer 5 lazyPage1 lazyPage2 lazyPage3
    (.num 1) (.num 2) (.num 3) (.num 4)
    rfl rfl rfl rfl rfl rfl rfl rfl).2

/-- C9: fetch-one-page is deterministic in the response: two calls for
which the server returned the same status and the same body produce
structurally identical results. -/
theorem listPaginated_deterministic (r1 r2 : HttpResponse)
    (hs : r1.status = r2.status) (hb : r1.body = r2.body) :
    listPaginated r1 = listPaginated r2 := by
  cases r1
  cases r2
  cases hs
  cases hb
  rfl

/-- Witness for C9 at two equal concrete responses. -/
theorem listPaginated_deterministic_witness :
    listPaginated ⟨200, some (.obj metaFields)⟩ =
      listPaginated ⟨200, some (.obj metaFields)⟩ :=
  listPaginated_deterministic ⟨200, some (.obj metaFields)⟩
    ⟨200, some (.obj metaFields)⟩ rfl rfl

/-- C10: stream_all implicitly requires its open parameter mapping to
contain neither page nor per_page — it supplies both itself on every
fetch.  A mapping containing either key makes the first fetch call fail
with a duplicate-keyword TypeError before any request is assembled;
under the precondition the error branch is unreachable and the fetch
receives per_page, page and the forwarded parameters; the CLI strip of
those two keys establishes the precondition. -/
theorem streamAll_kwargs_precondition (perPage : Json)
    (params : List (String × Json)) :
    ((params.any fun kv => kv.1 == "page" || kv.1 == "per_page") = true →
      ∃ k, streamAllFirstKwargs perPage params = .typeError k) ∧
    ((params.any fun kv => kv.1 == "page" || kv.1 == "per_page") = false →
      streamAllFirstKwargs perPage params =
        .request (("per_page", perPage) :: ("page", .num 1) :: params)) ∧
    (∀ ps : List (String × Json),
      ((stripPageKeys ps).any fun kv => kv.1 == "page" || kv.1 == "per_page") = false) := by
  refine ⟨fun h => ?_, fun h => ?_, fun ps => ?_⟩
  · cases hf : params.find? (fun kv => "per_page" == kv.1 || "page" == kv.1) with
    | some kv =>
      exact ⟨kv.1, by simp [streamAllFirstKwargs, callWithKwargs, hf]⟩
    | none =>
      exfalso
      rw [List.find?_eq_none] at hf
      rw [List.any_eq_true] at h
      obtain ⟨kv, hmem, hkv⟩ := h
      have h5 := hf kv hmem
      simp only [Bool.or_eq_true, beq_iff_eq] at h5 hkv
      rcases hkv with h4 | h4
      · exact h5 (Or.inr h4.symm)
      · exact h5 (Or.inl h4.symm)
  · have hf : params.find? (fun kv => "per_page" == kv.1 || "page" == kv.1) = none := by
      rw [List.find?_eq_none]
      intro kv hmem hp
      have hkv := List.any_eq_false.mp h kv hmem
      simp only [Bool.or_eq_true, beq_iff_eq] at hp hkv
      rcases hp with h4 | h4
      · exact hkv (Or.inr h4.symm)
      · exact hkv (Or.inl h4.symm)
    simp [streamAllFirstKwargs, callWithKwargs, hf]
  · rw [List.any_eq_false]
    intro kv hmem
    rw [stripPageKeys, List.mem_filter] at hmem
    have h5 := hmem.2
    simp only [Bool.not_eq_true', Bool.or_eq_false_iff] at h5
    simp [h5.1, h5.2]

/-- Witness for C10: a mapping containing page collides; the same
mapping with page stripped passes through untouched behind per_page and
page 1. -/
theorem streamAll_kwargs_precondition_witness :
    streamAllFirstKwargs (.num 50) [("city", .str "Berlin"), ("page", .num 2)] =
      .typeError "page" ∧
    streamAllFirstKwargs (.num 50) [("city", .str "Berlin")] =
      .request [("per_page", .num 50), ("page", .num 1), ("city", .str "Berlin")] := by
  have h2 := (streamAll_kwargs_precondition (.num 50)
    [("city", .str "Berlin")]).2.1 (by decide)
  exact ⟨rfl, h2⟩
